import Mathlib

/-!
Shallow embedding of the AR_Memory_Reconstructor reconstruction pipeline
(backend/services/depth_estimator.py, scene_generator.py, ar_exporter.py).
Python dicts are modelled as structures with `Option` fields where the code
reads keys through `.get(key, default)`; floats are modelled as exact
rationals, with `Option ℚ` (`none` = non-finite, NaN or infinity) where IEEE
division by zero matters; numpy reductions that raise on zero-size arrays
return `Except`.
-/

namespace ARMemory

/-- Equality on `Except` results is decidable when it is on both sides. -/
instance exceptDecEq {ε α : Type} [DecidableEq ε] [DecidableEq α] :
    DecidableEq (Except ε α) := fun x y =>
  match x, y with
  | .ok a, .ok b =>
      if h : a = b then isTrue (by rw [h])
      else isFalse (fun he => h (Except.ok.inj he))
  | .error e, .error f =>
      if h : e = f then isTrue (by rw [h])
      else isFalse (fun he => h (Except.error.inj he))
  | .ok _, .error _ => isFalse (fun he => Except.noConfusion he)
  | .error _, .ok _ => isFalse (fun he => Except.noConfusion he)

/-- Lighting dictionary built by `SceneGenerator._extract_lighting_info` and
mutated by `optimize_lighting`; every key is accessed via `.get` with a
default, so each field is optional. -/
structure LightingData where
  direction : Option (ℚ × ℚ × ℚ) := none
  intensity : Option ℚ := none
  ambient : Option ℚ := none
  shadow_strength : Option ℚ := none
deriving DecidableEq, Repr

/-- Camera-intrinsics dictionary (`image_analysis['camera']` / explicit
`camera_params`); all keys read through `.get` with defaults. -/
structure CameraInfo where
  estimated_focal_length : Option ℚ := none
  fx : Option ℚ := none
  fy : Option ℚ := none
  cx : Option ℚ := none
  cy : Option ℚ := none
deriving DecidableEq, Repr

/-- The slice of the image-analysis dictionary consumed by the scene
generator (`quality_score`, `camera`). -/
structure ImageAnalysis where
  quality_score : Option ℚ := none
  camera : Option CameraInfo := none
deriving DecidableEq, Repr

/-- The mesh-data dictionary produced by `_generate_mesh` /
`_create_simple_mesh`: vertices, integer face triples, per-vertex colors,
derived counts, axis-aligned bounds (min corner, max corner), centroid,
plus the lighting/score entries added later in `generate_3d_scene`. -/
structure MeshData where
  vertices : List (ℚ × ℚ × ℚ)
  faces : List (ℕ × ℕ × ℕ)
  vertex_colors : List (ℚ × ℚ × ℚ)
  vertex_count : ℕ
  face_count : ℕ
  bounds : (ℚ × ℚ × ℚ) × (ℚ × ℚ × ℚ)
  center : ℚ × ℚ × ℚ
  lighting : LightingData := {}
  complexity_score : Option ℚ := none
  quality_score : Option ℚ := none
deriving DecidableEq, Repr

/-! ## Scene scoring (`_calculate_complexity`, `_calculate_scene_quality`) -/

/-- `SceneGenerator._calculate_complexity`: mean of the two saturating
ratios `min(1.0, vertex_count/50000)` and `min(1.0, face_count/100000)`. -/
def calculateComplexity (vertex_count face_count : ℚ) : ℚ :=
  (min 1 (vertex_count / 50000) + min 1 (face_count / 100000)) / 2

/-- `SceneGenerator._calculate_scene_quality`: the blend
`min(1.0, image_quality * 0.6 + mesh_complexity * 0.4)`. -/
def calculateSceneQuality (image_quality mesh_complexity : ℚ) : ℚ :=
  min 1 (image_quality * (6/10) + mesh_complexity * (4/10))

/-- `_calculate_scene_quality` at the dictionary level: the image quality
is `image_analysis.get('quality_score', 0.8)` and the mesh complexity is
`mesh_data.get('complexity_score', 0.5)`. -/
def sceneQualityOf (m : MeshData) (a : ImageAnalysis) : ℚ :=
  calculateSceneQuality (a.quality_score.getD (8/10)) (m.complexity_score.getD (1/2))

/-- `_calculate_complexity` at the dictionary level (counts are the stored
`vertex_count` / `face_count` entries). -/
def complexityOf (m : MeshData) : ℚ :=
  calculateComplexity (m.vertex_count : ℚ) (m.face_count : ℚ)

/-! ## Background extension (`_extend_background`) -/

/-- `SceneGenerator._extend_background`: appends a 4-vertex gray ground
plane below the mesh and two ground-plane faces.  `ground_faces` is built
with base offset `len(vertices)`, and the `extend` call shifts each entry
by `len(vertices)` again, exactly as in the source. -/
def extendBackground (m : MeshData) : MeshData :=
  let n := m.vertices.length
  let lo := m.bounds.1
  let hi := m.bounds.2
  let c := m.center
  let groundY := lo.2.1 - 1
  let groundSize := max (hi.1 - lo.1) (hi.2.2 - lo.2.2) * 2
  let groundVertices : List (ℚ × ℚ × ℚ) :=
    [ (c.1 - groundSize / 2, groundY, c.2.2 - groundSize / 2),
      (c.1 + groundSize / 2, groundY, c.2.2 - groundSize / 2),
      (c.1 + groundSize / 2, groundY, c.2.2 + groundSize / 2),
      (c.1 - groundSize / 2, groundY, c.2.2 + groundSize / 2) ]
  let groundFaces : List (ℕ × ℕ × ℕ) := [(n, n + 1, n + 2), (n, n + 2, n + 3)]
  { m with
    vertices := m.vertices ++ groundVertices
    faces := m.faces ++ groundFaces.map (fun f => (f.1 + n, f.2.1 + n, f.2.2 + n))
    vertex_colors := m.vertex_colors ++
      [(128, 128, 128), (128, 128, 128), (128, 128, 128), (128, 128, 128)]
    vertex_count := m.vertex_count + 4
    face_count := m.face_count + 2 }

/-! ## Surface-reconstruction fallback (`_create_simple_mesh`) -/

/-- `np.ndarray.min(axis=0)` over a list of 3D points: componentwise
minimum; raises `ValueError` on a zero-size array. -/
def npMinAxis0 : List (ℚ × ℚ × ℚ) → Except String (ℚ × ℚ × ℚ)
  | [] => .error "zero-size array to reduction operation minimum which has no identity"
  | p :: ps =>
      .ok (ps.foldl (fun a b => (min a.1 b.1, min a.2.1 b.2.1, min a.2.2 b.2.2)) p)

/-- `np.ndarray.max(axis=0)` over a list of 3D points: componentwise
maximum; raises `ValueError` on a zero-size array. -/
def npMaxAxis0 : List (ℚ × ℚ × ℚ) → Except String (ℚ × ℚ × ℚ)
  | [] => .error "zero-size array to reduction operation maximum which has no identity"
  | p :: ps =>
      .ok (ps.foldl (fun a b => (max a.1 b.1, max a.2.1 b.2.1, max a.2.2 b.2.2)) p)

/-- `np.ndarray.mean(axis=0)` over a list of 3D points. -/
def meanAxis0 (ps : List (ℚ × ℚ × ℚ)) : ℚ × ℚ × ℚ :=
  let s := ps.foldl (fun a b => (a.1 + b.1, a.2.1 + b.2.1, a.2.2 + b.2.2)) (0, 0, 0)
  (s.1 / ps.length, s.2.1 / ps.length, s.2.2 / ps.length)

/-- numpy `astype(int)`: truncation toward zero. -/
def pyTrunc (q : ℚ) : ℤ :=
  if q < 0 then -Int.floor (-q) else Int.floor q

/-- The grid-based face construction of `_create_simple_mesh`'s innermost
fallback: `grid_size = int(sqrt(n_points))`, two triangles per grid cell,
guarded by `i*grid_size + j + grid_size + 1 < n_points`. -/
def gridFaces (nPoints : ℕ) : List (ℕ × ℕ × ℕ) :=
  let gridSize := Nat.sqrt nPoints
  (List.range (gridSize - 1)).flatMap (fun i =>
    (List.range (gridSize - 1)).flatMap (fun j =>
      if i * gridSize + j + gridSize + 1 < nPoints then
        [ (i * gridSize + j, i * gridSize + j + 1, (i + 1) * gridSize + j),
          (i * gridSize + j + 1, (i + 1) * gridSize + j + 1, (i + 1) * gridSize + j) ]
      else []))

/-- `SceneGenerator._create_simple_mesh`.  The two external effects are
passed in as parameters: `pick n k` models the index list drawn by
`np.random.choice(n, k, replace=False)`, and `delaunay` models
`scipy.spatial.Delaunay` on the XY projection (`.error` when it raises,
which the bare `except` turns into the grid fallback).  The final dict
literal evaluates `points.min(axis=0)` / `points.max(axis=0)`, which raise
on an empty array; that exception is not caught inside this function. -/
def createSimpleMesh (pick : ℕ → ℕ → List ℕ)
    (delaunay : List (ℚ × ℚ) → Except Unit (List (ℕ × ℕ × ℕ)))
    (points colors : List (ℚ × ℚ × ℚ)) : Except String MeshData :=
  let sub :=
    if 10000 < points.length then
      let idx := pick points.length 10000
      (idx.filterMap (fun i => points.get? i), idx.filterMap (fun i => colors.get? i))
    else (points, colors)
  let pts := sub.1
  let cols := sub.2
  let pts2d := pts.map (fun p => (p.1, p.2.1))
  let faces :=
    match delaunay pts2d with
    | .ok fs => fs
    | .error _ => gridFaces pts.length
  match npMinAxis0 pts, npMaxAxis0 pts with
  | .ok lo, .ok hi =>
      .ok { vertices := pts
            faces := faces
            vertex_colors := cols.map (fun c =>
              ((pyTrunc (c.1 * 255) : ℚ), (pyTrunc (c.2.1 * 255) : ℚ),
               (pyTrunc (c.2.2 * 255) : ℚ)))
            vertex_count := pts.length
            face_count := faces.length
            bounds := (lo, hi)
            center := meanAxis0 pts }
  | .error e, _ => .error e
  | _, .error e => .error e

/-! ## Depth normalization (`_normalize_depth` and the inline
normalization of `_simple_depth_estimation`) -/

/-- IEEE-style division on the depth grid: `none` models a non-finite
result (NaN or infinity) when the divisor is zero. -/
def fdiv (a b : ℚ) : Option ℚ :=
  if b = 0 then none else some (a / b)

/-- `DepthEstimator._normalize_depth` on the (flattened) depth grid:
guarded min-max normalization, `np.zeros_like` when max equals min;
numpy's `min`/`max` raise on a zero-size array. -/
def normalizeDepth : List ℚ → Except String (List ℚ)
  | [] => .error "zero-size array to reduction operation maximum which has no identity"
  | x :: xs =>
      let m := xs.foldl min x
      let M := xs.foldl max x
      if M = m then .ok ((x :: xs).map (fun _ => 0))
      else .ok ((x :: xs).map (fun d => (d - m) / (M - m)))

/-- The inline final normalization of `DepthEstimator._simple_depth_estimation`
(`(d - d.min()) / (d.max() - d.min())`), which has no zero-span guard:
when max equals min every entry becomes `0/0`, a NaN (`none`). -/
def simpleDepthNormalize : List ℚ → Except String (List (Option ℚ))
  | [] => .error "zero-size array to reduction operation minimum which has no identity"
  | x :: xs =>
      let m := xs.foldl min x
      let M := xs.foldl max x
      .ok ((x :: xs).map (fun d => fdiv (d - m) (M - m)))

/-! ## Pinhole projection (`DepthEstimator.create_point_cloud` and
`SceneGenerator._create_point_cloud`) -/

/-- Row-major pixel enumeration `(v, u)` of an `h × w` grid, matching the
`meshgrid` + `reshape(-1, 3)` flattening order of the source. -/
def pixelList (h w : ℕ) : List (ℕ × ℕ) :=
  (List.range h).flatMap (fun v => (List.range w).map (fun u => (v, u)))

/-- `DepthEstimator.create_point_cloud`: pinhole projection with
`z = depth * 10.0`, then the valid mask `(z > 0) & (z < 100)` applied to
the flattened point and color arrays.  Each retained element is a
`(point, color)` pair. -/
def createPointCloud (camera_params : Option CameraInfo)
    (image : List (List (ℚ × ℚ × ℚ))) (depth_map : List (List ℚ)) :
    List ((ℚ × ℚ × ℚ) × (ℚ × ℚ × ℚ)) :=
  let h := depth_map.length
  let w := (depth_map.headD []).length
  let fx := match camera_params with
    | none => (w : ℚ) * (7/10)
    | some c => c.fx.getD ((w : ℚ) * (7/10))
  let fy := match camera_params with
    | none => (w : ℚ) * (7/10)
    | some c => c.fy.getD ((w : ℚ) * (7/10))
  let cx := match camera_params with
    | none => (w : ℚ) / 2
    | some c => c.cx.getD ((w : ℚ) / 2)
  let cy := match camera_params with
    | none => (h : ℚ) / 2
    | some c => c.cy.getD ((h : ℚ) / 2)
  (pixelList h w).filterMap (fun vu =>
    let v := vu.1
    let u := vu.2
    let d := ((depth_map.get? v).getD []).getD u 0
    let z := d * 10
    if 0 < z ∧ z < 100 then
      some ((((u : ℚ) - cx) * z / fx, ((v : ℚ) - cy) * z / fy, z),
            ((image.get? v).getD []).getD u (0, 0, 0))
    else none)

/-- `SceneGenerator._create_point_cloud`: pinhole projection with
`fx = image_analysis['camera'].get('estimated_focal_length', w * 0.7)`,
`z = depth * 5.0`, and the valid mask `(z > 0.1) & (z < 20.0)`. -/
def sceneCreatePointCloud (image_analysis : ImageAnalysis)
    (image : List (List (ℚ × ℚ × ℚ))) (depth_map : List (List ℚ)) :
    List ((ℚ × ℚ × ℚ) × (ℚ × ℚ × ℚ)) :=
  let h := depth_map.length
  let w := (depth_map.headD []).length
  let cameraInfo := image_analysis.camera.getD {}
  let fx := cameraInfo.estimated_focal_length.getD ((w : ℚ) * (7/10))
  let fy := fx
  let cx := (w : ℚ) / 2
  let cy := (h : ℚ) / 2
  (pixelList h w).filterMap (fun vu =>
    let v := vu.1
    let u := vu.2
    let d := ((depth_map.get? v).getD []).getD u 0
    let z := d * 5
    if 1/10 < z ∧ z < 20 then
      some ((((u : ℚ) - cx) * z / fx, ((v : ℚ) - cy) * z / fy, z),
            (((image.get? v).getD []).getD u (0, 0, 0)) / 255)
    else none)

/-! ## Lighting optimization (`optimize_lighting`) -/

/-- `SceneGenerator.optimize_lighting`: reads the lighting dict from the
mesh, raises intensity to `min(1.0, intensity * (0.5 + quality * 0.5))`
and ambient to `max(0.1, min(0.5, ambient * quality))` with quality
`image_analysis.get('quality_score', 0.8)`, and writes the lighting dict
back. -/
def optimizeLighting (m : MeshData) (image_analysis : ImageAnalysis) : MeshData :=
  let lighting := m.lighting
  let quality_score := image_analysis.quality_score.getD (8/10)
  let intensity := min 1 (lighting.intensity.getD (8/10) * (1/2 + quality_score * (1/2)))
  let ambient := max (1/10) (min (1/2) (lighting.ambient.getD (3/10) * quality_score))
  { m with lighting := { lighting with intensity := some intensity, ambient := some ambient } }

/-! ## AR export path resolution (`ARExporter.export_ar_scene`) -/

/-- The three trimesh container formats the exporter can write. -/
inductive ExportFormat where
  | glb
  | gltf
  | obj
deriving DecidableEq, Repr

/-- Python `path.rsplit('.', 1)[0]`: everything before the last dot, or
the whole string when it has no dot. -/
def dropAfterLastDot (s : List Char) : List Char :=
  match s.reverse.dropWhile (fun c => c ≠ '.') with
  | [] => s
  | _ :: rest => rest.reverse

/-- The extension dispatch of `ARExporter.export_ar_scene` (the primary,
non-exception path): which container is written and which path is
returned. -/
def exportArScene (output_path : List Char) : ExportFormat × List Char :=
  if List.isSuffixOf ".glb".toList output_path then (.glb, output_path)
  else if List.isSuffixOf ".gltf".toList output_path then (.gltf, output_path)
  else if List.isSuffixOf ".obj".toList output_path then (.obj, output_path)
  else (.glb, dropAfterLastDot output_path ++ ".glb".toList)

/-! ## JSON fallback export (`_export_simple_format`) -/

/-- In-memory JSON documents, the image of `json.dump` /  the domain of
`json.load`. -/
inductive Json where
  | num : ℚ → Json
  | str : String → Json
  | arr : List Json → Json
  | obj : List (String × Json) → Json

/-- Key lookup in a JSON object. -/
def Json.get : Json → String → Option Json
  | .obj kvs, k => kvs.lookup k
  | _, _ => none

/-- A 3D rational triple as a JSON array. -/
def jsonOfTriple (p : ℚ × ℚ × ℚ) : Json :=
  .arr [.num p.1, .num p.2.1, .num p.2.2]

/-- A face index triple as a JSON array of numbers. -/
def jsonOfFace (f : ℕ × ℕ × ℕ) : Json :=
  .arr [.num (f.1 : ℚ), .num (f.2.1 : ℚ), .num (f.2.2 : ℚ)]

/-- The lighting dict as JSON (keys present only when set, matching the
dict contents). -/
def jsonOfLighting (l : LightingData) : Json :=
  .obj ((match l.direction with
          | some d => [("direction", jsonOfTriple d)]
          | none => []) ++
        (match l.intensity with
          | some i => [("intensity", Json.num i)]
          | none => []) ++
        (match l.ambient with
          | some a => [("ambient", Json.num a)]
          | none => []) ++
        (match l.shadow_strength with
          | some s => [("shadow_strength", Json.num s)]
          | none => []))

/-- `ARExporter._export_simple_format`: the JSON document written to disk
(schema `format`/`version`/`geometry`/`lighting`/`metadata`, with the
geometry arrays copied verbatim from the scene dict). -/
def exportSimpleFormat (m : MeshData) : Json :=
  .obj [ ("format", .str "ar_memory_scene"),
         ("version", .str "1.0"),
         ("geometry", .obj [
            ("vertices", .arr (m.vertices.map jsonOfTriple)),
            ("faces", .arr (m.faces.map jsonOfFace)),
            ("vertex_colors", .arr (m.vertex_colors.map jsonOfTriple)) ]),
         ("lighting", jsonOfLighting m.lighting),
         ("metadata", .obj [
            ("vertex_count", .num (m.vertex_count : ℚ)),
            ("face_count", .num (m.face_count : ℚ)),
            ("bounds", .arr [jsonOfTriple m.bounds.1, jsonOfTriple m.bounds.2]),
            ("center", jsonOfTriple m.center) ]) ]

/-- Reparse a JSON array of three numbers as a rational triple. -/
def parseTriple : Json → Option (ℚ × ℚ × ℚ)
  | .arr [.num a, .num b, .num c] => some (a, b, c)
  | _ => none

/-- Reparse a JSON number as a natural (a face index). -/
def parseNatNum : Json → Option ℕ
  | .num q => if q.den = 1 ∧ 0 ≤ q.num then some q.num.toNat else none
  | _ => none

/-- Reparse a JSON array of three numbers as a face index triple. -/
def parseFace (j : Json) : Option (ℕ × ℕ × ℕ) :=
  match j with
  | .arr [a, b, c] =>
      match parseNatNum a, parseNatNum b, parseNatNum c with
      | some x, some y, some z => some (x, y, z)
      | _, _, _ => none
  | _ => none

/-- Reparse the vertex array of an exported document. -/
def parseVerticesOf (doc : Json) : Option (List (ℚ × ℚ × ℚ)) :=
  doc.get "geometry" >>= fun g => g.get "vertices" >>= fun j =>
    match j with
    | .arr xs => xs.mapM parseTriple
    | _ => none

/-- Reparse the face array of an exported document. -/
def parseFacesOf (doc : Json) : Option (List (ℕ × ℕ × ℕ)) :=
  doc.get "geometry" >>= fun g => g.get "faces" >>= fun j =>
    match j with
    | .arr xs => xs.mapM parseFace
    | _ => none

/-- Reparse the vertex-color array of an exported document. -/
def parseColorsOf (doc : Json) : Option (List (ℚ × ℚ × ℚ)) :=
  doc.get "geometry" >>= fun g => g.get "vertex_colors" >>= fun j =>
    match j with
    | .arr xs => xs.mapM parseTriple
    | _ => none

/-- A one-vertex, zero-face mesh dictionary. -/
def exMesh1 : MeshData :=
  { vertices := [(0, 0, 0)]
    faces := []
    vertex_colors := [(1, 1, 1)]
    vertex_count := 1
    face_count := 0
    bounds := ((0, 0, 0), (0, 0, 0))
    center := (0, 0, 0) }

/-! ## Theorems -/

/-- C1: on the one-vertex, zero-face mesh, `_extend_background` grows the
vertex list by 4 and the face list by 2 and the new face indices are ≥ the
original vertex count, but the offset is added twice (`ground_faces` is
already built from `len(vertices)` and the `extend` shifts it again), so
the resulting faces (2,3,4) and (2,4,5) contain the index 5, which is not
strictly less than the new vertex count 5: the validity part of the
postcondition fails. -/
theorem extendBackground_exMesh1_face_index_out_of_range :
    (extendBackground exMesh1).vertices.length = 1 + 4 ∧
    (extendBackground exMesh1).faces.length = 0 + 2 ∧
    (∀ f ∈ (extendBackground exMesh1).faces, 1 ≤ f.1 ∧ 1 ≤ f.2.1 ∧ 1 ≤ f.2.2) ∧
    ¬ (∀ f ∈ (extendBackground exMesh1).faces,
        f.1 < (extendBackground exMesh1).vertices.length ∧
        f.2.1 < (extendBackground exMesh1).vertices.length ∧
        f.2.2 < (extendBackground exMesh1).vertices.length) := by
  decide

/-- C2: `_create_simple_mesh` on an empty point cloud raises (models the
`ValueError` from `points.min(axis=0)` on a zero-size array), whatever the
subsampling randomness and the Delaunay triangulation do, so the fallback
does not return a zero-face mesh on this input. -/
theorem createSimpleMesh_empty_raises (pick : ℕ → ℕ → List ℕ)
    (delaunay : List (ℚ × ℚ) → Except Unit (List (ℕ × ℕ × ℕ))) :
    createSimpleMesh pick delaunay [] [] =
      .error "zero-size array to reduction operation minimum which has no identity" := rfl

/-- C3: on a constant pre-normalization depth map (the gradient fallback
produces one for any constant-gray image), the inline normalization of
`_simple_depth_estimation` divides by the zero span and yields an all-NaN
map (`none` entries), while the guarded `_normalize_depth` maps the same
input to all-zero: the zero-span guard is missing from the fallback
path. -/
theorem simpleDepthNormalize_constant_is_nan :
    simpleDepthNormalize [255, 255, 255, 255] = .ok [none, none, none, none] ∧
    normalizeDepth [255, 255, 255, 255] = .ok [0, 0, 0, 0] := by
  constructor <;> simp [simpleDepthNormalize, normalizeDepth, fdiv, List.foldl_cons]

/-- C4 counterexample: for the finite, non-NaN inputs
`vertex_count = -50000` (complexity) and `image_quality = -1` (quality),
both scores are negative, hence not within [0,1]: the code has no lower
clamp. -/
theorem calculateScores_negative_counterexample :
    calculateComplexity (-50000) 0 < 0 ∧
    calculateSceneQuality (-1) (calculateComplexity 0 0) < 0 := by
  constructor <;> norm_num [calculateComplexity, calculateSceneQuality]

/-- C4 amended: for nonnegative finite inputs (counts ≥ 0, image quality
≥ 0), the complexity score and the quality score computed from it both lie
within [0,1]. -/
theorem calculateScores_in_unit_interval (vc fc q : ℚ)
    (hvc : 0 ≤ vc) (hfc : 0 ≤ fc) (hq : 0 ≤ q) :
    (0 ≤ calculateComplexity vc fc ∧ calculateComplexity vc fc ≤ 1) ∧
    (0 ≤ calculateSceneQuality q (calculateComplexity vc fc) ∧
     calculateSceneQuality q (calculateComplexity vc fc) ≤ 1) := by
  have h1 : (0 : ℚ) ≤ min 1 (vc / 50000) := le_min (by norm_num) (by positivity)
  have h2 : (0 : ℚ) ≤ min 1 (fc / 100000) := le_min (by norm_num) (by positivity)
  have h1' : min 1 (vc / 50000) ≤ 1 := min_le_left _ _
  have h2' : min 1 (fc / 100000) ≤ 1 := min_le_left _ _
  have hc0 : 0 ≤ calculateComplexity vc fc := by
    unfold calculateComplexity; linarith
  have hc1 : calculateComplexity vc fc ≤ 1 := by
    unfold calculateComplexity; linarith
  refine ⟨⟨hc0, hc1⟩, ?_, min_le_left _ _⟩
  unfold calculateSceneQuality
  have : (0 : ℚ) ≤ q * (6/10) + calculateComplexity vc fc * (4/10) := by
    have := mul_nonneg hq (by norm_num : (0:ℚ) ≤ 6/10)
    have := mul_nonneg hc0 (by norm_num : (0:ℚ) ≤ 4/10)
    linarith
  exact le_min (by norm_num) this

/-- C4 witness: the amended bound evaluated at vertex count 100, face
count 200, image quality 1/2. -/
theorem calculateScores_in_unit_interval_witness :
    (0 : ℚ) ≤ 100 ∧ (0 : ℚ) ≤ 200 ∧ (0 : ℚ) ≤ 1/2 ∧
    ((0 ≤ calculateComplexity 100 200 ∧ calculateComplexity 100 200 ≤ 1) ∧
     (0 ≤ calculateSceneQuality (1/2) (calculateComplexity 100 200) ∧
      calculateSceneQuality (1/2) (calculateComplexity 100 200) ≤ 1)) :=
  ⟨by norm_num, by norm_num, by norm_num,
   calculateScores_in_unit_interval 100 200 (1/2) (by norm_num) (by norm_num) (by norm_num)⟩

theorem foldl_min_mem {α : Type} [LinearOrder α] (x : α) (xs : List α) :
    xs.foldl min x ∈ x :: xs := by
  induction xs generalizing x with
  | nil => simp
  | cons y ys ih =>
    rw [List.foldl_cons]
    rcases List.mem_cons.mp (ih (min x y)) with h1 | h1
    · rw [h1]
      rcases min_choice x y with hc | hc <;> rw [hc] <;> simp
    · exact List.mem_cons_of_mem _ (List.mem_cons_of_mem _ h1)

theorem foldl_max_mem {α : Type} [LinearOrder α] (x : α) (xs : List α) :
    xs.foldl max x ∈ x :: xs := by
  induction xs generalizing x with
  | nil => simp
  | cons y ys ih =>
    rw [List.foldl_cons]
    rcases List.mem_cons.mp (ih (max x y)) with h1 | h1
    · rw [h1]
      rcases max_choice x y with hc | hc <;> rw [hc] <;> simp
    · exact List.mem_cons_of_mem _ (List.mem_cons_of_mem _ h1)

theorem foldl_min_le {α : Type} [LinearOrder α] (x : α) (xs : List α) :
    ∀ a ∈ x :: xs, xs.foldl min x ≤ a := by
  induction xs generalizing x with
  | nil =>
    intro a ha
    rw [List.mem_singleton] at ha
    simp [ha]
  | cons y ys ih =>
    intro a ha
    rw [List.foldl_cons]
    have hbase := ih (min x y) (min x y) (List.mem_cons_self _ _)
    rcases List.mem_cons.mp ha with rfl | ha1
    · exact le_trans hbase (min_le_left _ _)
    · rcases List.mem_cons.mp ha1 with rfl | ha2
      · exact le_trans hbase (min_le_right _ _)
      · exact ih (min x y) a (List.mem_cons_of_mem _ ha2)

theorem le_foldl_max {α : Type} [LinearOrder α] (x : α) (xs : List α) :
    ∀ a ∈ x :: xs, a ≤ xs.foldl max x := by
  induction xs generalizing x with
  | nil =>
    intro a ha
    rw [List.mem_singleton] at ha
    simp [ha]
  | cons y ys ih =>
    intro a ha
    rw [List.foldl_cons]
    have hbase := ih (max x y) (max x y) (List.mem_cons_self _ _)
    rcases List.mem_cons.mp ha with rfl | ha1
    · exact le_trans (le_max_left _ _) hbase
    · rcases List.mem_cons.mp ha1 with rfl | ha2
      · exact le_trans (le_max_right _ _) hbase
      · exact ih (max x y) a (List.mem_cons_of_mem _ ha2)

/-- C6: on a nonempty depth map, `_normalize_depth` returns the all-zero
map when the input is constant, and otherwise a map that attains minimum 0
and maximum 1 (0 and 1 are attained and every entry lies in [0,1]). -/
theorem normalizeDepth_spec (l : List ℚ) (hne : l ≠ []) :
    ((∀ a ∈ l, ∀ b ∈ l, a = b) → normalizeDepth l = .ok (l.map fun _ => 0)) ∧
    (¬ (∀ a ∈ l, ∀ b ∈ l, a = b) →
      ∃ r, normalizeDepth l = .ok r ∧ (0 : ℚ) ∈ r ∧ (1 : ℚ) ∈ r ∧
        ∀ y ∈ r, 0 ≤ y ∧ y ≤ 1) := by
  obtain ⟨x, xs, rfl⟩ := List.exists_cons_of_ne_nil hne
  have hmmem : xs.foldl min x ∈ x :: xs := foldl_min_mem x xs
  have hMmem : xs.foldl max x ∈ x :: xs := foldl_max_mem x xs
  have hmle : ∀ a ∈ x :: xs, xs.foldl min x ≤ a := foldl_min_le x xs
  have hleM : ∀ a ∈ x :: xs, a ≤ xs.foldl max x := le_foldl_max x xs
  constructor
  · intro hconst
    have heq : xs.foldl max x = xs.foldl min x := hconst _ hMmem _ hmmem
    simp only [normalizeDepth]
    rw [if_pos heq]
  · intro hnc
    have hne2 : xs.foldl max x ≠ xs.foldl min x := by
      intro he
      apply hnc
      intro a ha b hb
      have ha' : a = xs.foldl min x :=
        le_antisymm (he ▸ hleM a ha) (hmle a ha)
      have hb' : b = xs.foldl min x :=
        le_antisymm (he ▸ hleM b hb) (hmle b hb)
      rw [ha', hb']
    have hlt : xs.foldl min x < xs.foldl max x :=
      lt_of_le_of_ne
        (le_trans (hmle x (List.mem_cons_self _ _)) (hleM x (List.mem_cons_self _ _)))
        (Ne.symm hne2)
    have hpos : 0 < xs.foldl max x - xs.foldl min x := sub_pos.mpr hlt
    refine ⟨(x :: xs).map
        (fun d => (d - xs.foldl min x) / (xs.foldl max x - xs.foldl min x)),
      ?_, ?_, ?_, ?_⟩
    · simp only [normalizeDepth]
      rw [if_neg hne2]
    · exact List.mem_map.mpr ⟨xs.foldl min x, hmmem, by rw [sub_self, zero_div]⟩
    · exact List.mem_map.mpr ⟨xs.foldl max x, hMmem, div_self (ne_of_gt hpos)⟩
    · intro y hy
      obtain ⟨d, hd, rfl⟩ := List.mem_map.mp hy
      constructor
      · exact div_nonneg (sub_nonneg.mpr (hmle d hd)) hpos.le
      · rw [div_le_one hpos]
        exact sub_le_sub_right (hleM d hd) _

/-- C6 witness: normalization of the concrete non-constant map [0, 2]
attains 0 and 1 and stays within [0,1]. -/
theorem normalizeDepth_spec_witness :
    ([(0 : ℚ), 2] ≠ [] ∧
     ∃ r, normalizeDepth [(0 : ℚ), 2] = .ok r ∧ (0 : ℚ) ∈ r ∧ (1 : ℚ) ∈ r ∧
       ∀ y ∈ r, 0 ≤ y ∧ y ≤ 1) :=
  ⟨by decide, (normalizeDepth_spec [(0 : ℚ), 2] (by decide)).2 (by decide)⟩

theorem length_pixelList (h w : ℕ) : (pixelList h w).length = h * w := by
  induction h with
  | zero => simp [pixelList]
  | succ n ih =>
    have hstep : pixelList (n + 1) w =
        pixelList n w ++ ((List.range w).map (fun u => (n, u))) := by
      simp [pixelList, List.range_succ]
    rw [hstep, List.length_append, ih, List.length_map, List.length_range]
    ring

/-- C5: every point retained by `create_point_cloud` has Z strictly inside
(0, 100), every point retained by `_create_point_cloud` has Z strictly
inside (0.1, 20.0) (out-of-range points are dropped by the mask, not
clamped), and each cloud has at most one point per pixel of the depth
map. -/
theorem pointCloud_z_range (camera_params : Option CameraInfo) (a : ImageAnalysis)
    (image : List (List (ℚ × ℚ × ℚ))) (depth_map : List (List ℚ)) :
    (∀ p ∈ createPointCloud camera_params image depth_map,
      0 < p.1.2.2 ∧ p.1.2.2 < 100) ∧
    (∀ p ∈ sceneCreatePointCloud a image depth_map,
      1/10 < p.1.2.2 ∧ p.1.2.2 < 20) ∧
    (createPointCloud camera_params image depth_map).length ≤
      depth_map.length * (depth_map.headD []).length ∧
    (sceneCreatePointCloud a image depth_map).length ≤
      depth_map.length * (depth_map.headD []).length := by
  refine ⟨?_, ?_, ?_, ?_⟩
  · intro p hp
    simp only [createPointCloud, List.mem_filterMap] at hp
    obtain ⟨vu, _, hf⟩ := hp
    split at hf
    · rename_i hcond
      cases hf
      exact hcond
    · exact absurd hf (by simp)
  · intro p hp
    simp only [sceneCreatePointCloud, List.mem_filterMap] at hp
    obtain ⟨vu, _, hf⟩ := hp
    split at hf
    · rename_i hcond
      cases hf
      exact hcond
    · exact absurd hf (by simp)
  · calc (createPointCloud camera_params image depth_map).length
        ≤ (pixelList depth_map.length (depth_map.headD []).length).length :=
          List.length_filterMap_le _ _
      _ = depth_map.length * (depth_map.headD []).length := length_pixelList _ _
  · calc (sceneCreatePointCloud a image depth_map).length
        ≤ (pixelList depth_map.length (depth_map.headD []).length).length :=
          List.length_filterMap_le _ _
      _ = depth_map.length * (depth_map.headD []).length := length_pixelList _ _

/-- C5 witness: the bounds instantiated at a concrete camera, image and
depth map. -/
theorem pointCloud_z_range_witness :
    (∀ p ∈ createPointCloud none [[((1 : ℚ), 1, 1)]] [[(1 : ℚ)]],
      0 < p.1.2.2 ∧ p.1.2.2 < 100) ∧
    (∀ p ∈ sceneCreatePointCloud {} [[((1 : ℚ), 1, 1)]] [[(1 : ℚ)]],
      1/10 < p.1.2.2 ∧ p.1.2.2 < 20) ∧
    (createPointCloud none [[((1 : ℚ), 1, 1)]] [[(1 : ℚ)]]).length ≤
      [[(1 : ℚ)]].length * ([[(1 : ℚ)]].headD []).length ∧
    (sceneCreatePointCloud {} [[((1 : ℚ), 1, 1)]] [[(1 : ℚ)]]).length ≤
      [[(1 : ℚ)]].length * ([[(1 : ℚ)]].headD []).length :=
  pointCloud_z_range none {} [[((1 : ℚ), 1, 1)]] [[(1 : ℚ)]]

/-- C7: for any output path whose extension is none of the three
recognized ones (.glb, .gltf, .obj), `export_ar_scene` writes the default
GLB container and returns the path with its extension replaced by .glb, so
the returned path's extension matches the container written. -/
theorem exportArScene_unrecognized_extension (p : List Char)
    (h1 : List.isSuffixOf ".glb".toList p = false)
    (h2 : List.isSuffixOf ".gltf".toList p = false)
    (h3 : List.isSuffixOf ".obj".toList p = false) :
    exportArScene p = (.glb, dropAfterLastDot p ++ ".glb".toList) ∧
    List.isSuffixOf ".glb".toList (exportArScene p).2 = true := by
  have he : exportArScene p = (.glb, dropAfterLastDot p ++ ".glb".toList) := by
    simp only [exportArScene, h1, h2, h3]
    simp
  refine ⟨he, ?_⟩
  rw [he]
  exact List.isSuffixOf_iff_suffix.mpr (List.suffix_append _ _)

/-- C7 witness: exporting to "scene.usdz" resolves to "scene.glb" written
as GLB. -/
theorem exportArScene_unrecognized_extension_witness :
    (List.isSuffixOf ".glb".toList "scene.usdz".toList = false ∧
     List.isSuffixOf ".gltf".toList "scene.usdz".toList = false ∧
     List.isSuffixOf ".obj".toList "scene.usdz".toList = false) ∧
    (exportArScene "scene.usdz".toList =
      (.glb, dropAfterLastDot "scene.usdz".toList ++ ".glb".toList) ∧
     List.isSuffixOf ".glb".toList (exportArScene "scene.usdz".toList).2 = true) :=
  ⟨⟨by decide, by decide, by decide⟩,
   exportArScene_unrecognized_extension "scene.usdz".toList
     (by decide) (by decide) (by decide)⟩

/-- C8: `optimize_lighting` sets intensity to
`min(1.0, intensity * (0.5 + 0.5 * quality))` and ambient to
`max(0.1, min(0.5, ambient * quality))` (quality read with default 0.8,
old intensity/ambient read with defaults 0.8/0.3), and leaves the lighting
direction and shadow strength and every other mesh field — vertices,
faces, colors, counts, bounds, center, scores — unchanged. -/
theorem optimizeLighting_mutates_only_lighting (m : MeshData) (a : ImageAnalysis) :
    (optimizeLighting m a).lighting.intensity =
      some (min 1 (m.lighting.intensity.getD (8/10) *
        (1/2 + a.quality_score.getD (8/10) * (1/2)))) ∧
    (optimizeLighting m a).lighting.ambient =
      some (max (1/10) (min (1/2) (m.lighting.ambient.getD (3/10) *
        a.quality_score.getD (8/10)))) ∧
    (optimizeLighting m a).lighting.direction = m.lighting.direction ∧
    (optimizeLighting m a).lighting.shadow_strength = m.lighting.shadow_strength ∧
    (optimizeLighting m a).vertices = m.vertices ∧
    (optimizeLighting m a).faces = m.faces ∧
    (optimizeLighting m a).vertex_colors = m.vertex_colors ∧
    (optimizeLighting m a).vertex_count = m.vertex_count ∧
    (optimizeLighting m a).face_count = m.face_count ∧
    (optimizeLighting m a).bounds = m.bounds ∧
    (optimizeLighting m a).center = m.center ∧
    (optimizeLighting m a).complexity_score = m.complexity_score ∧
    (optimizeLighting m a).quality_score = m.quality_score :=
  ⟨rfl, rfl, rfl, rfl, rfl, rfl, rfl, rfl, rfl, rfl, rfl, rfl, rfl⟩

/-- C10: when the image analysis has no `quality_score` entry, both scene
quality and lighting optimization substitute the default image quality
0.8: quality becomes `min(1.0, 0.8*0.6 + complexity*0.4)` and the lighting
factors use quality 0.8. -/
theorem defaultQuality_is_point_eight (m : MeshData) (a : ImageAnalysis)
    (h : a.quality_score = none) :
    sceneQualityOf m a =
      min 1 ((8/10) * (6/10) + m.complexity_score.getD (1/2) * (4/10)) ∧
    (optimizeLighting m a).lighting.intensity =
      some (min 1 (m.lighting.intensity.getD (8/10) * (1/2 + (8/10) * (1/2)))) ∧
    (optimizeLighting m a).lighting.ambient =
      some (max (1/10) (min (1/2) (m.lighting.ambient.getD (3/10) * (8/10)))) := by
  refine ⟨?_, ?_, ?_⟩ <;>
    simp [sceneQualityOf, calculateSceneQuality, optimizeLighting, h]

/-- C10 witness: the default quality computation on the concrete
one-vertex mesh and an empty analysis. -/
theorem defaultQuality_is_point_eight_witness :
    ({} : ImageAnalysis).quality_score = none ∧
    (sceneQualityOf exMesh1 {} =
      min 1 ((8/10) * (6/10) + exMesh1.complexity_score.getD (1/2) * (4/10)) ∧
     (optimizeLighting exMesh1 {}).lighting.intensity =
      some (min 1 (exMesh1.lighting.intensity.getD (8/10) * (1/2 + (8/10) * (1/2)))) ∧
     (optimizeLighting exMesh1 {}).lighting.ambient =
      some (max (1/10) (min (1/2) (exMesh1.lighting.ambient.getD (3/10) * (8/10))))) :=
  ⟨rfl, defaultQuality_is_point_eight exMesh1 {} rfl⟩

theorem parseTriple_jsonOfTriple (p : ℚ × ℚ × ℚ) :
    parseTriple (jsonOfTriple p) = some p := rfl

theorem mapM_parseTriple (l : List (ℚ × ℚ × ℚ)) :
    (l.map jsonOfTriple).mapM parseTriple = some l := by
  induction l with
  | nil => rfl
  | cons x xs ih =>
    rw [List.map_cons, List.mapM_cons, parseTriple_jsonOfTriple, ih]
    rfl

theorem parseNatNum_natCast (n : ℕ) : parseNatNum (.num (n : ℚ)) = some n := by
  simp [parseNatNum, Rat.den_natCast, Rat.num_natCast]

theorem parseFace_jsonOfFace (f : ℕ × ℕ × ℕ) :
    parseFace (jsonOfFace f) = some f := by
  simp [parseFace, jsonOfFace, parseNatNum_natCast]

theorem mapM_parseFace (l : List (ℕ × ℕ × ℕ)) :
    (l.map jsonOfFace).mapM parseFace = some l := by
  induction l with
  | nil => rfl
  | cons x xs ih =>
    rw [List.map_cons, List.mapM_cons, parseFace_jsonOfFace, ih]
    rfl

/-- C9: reparsing the JSON document written by `_export_simple_format`
recovers the vertex, face and vertex-color arrays of the scene exactly. -/
theorem exportSimpleFormat_roundtrip (m : MeshData) :
    parseVerticesOf (exportSimpleFormat m) = some m.vertices ∧
    parseFacesOf (exportSimpleFormat m) = some m.faces ∧
    parseColorsOf (exportSimpleFormat m) = some m.vertex_colors := by
  refine ⟨?_, ?_, ?_⟩
  · show (m.vertices.map jsonOfTriple).mapM parseTriple = some m.vertices
    exact mapM_parseTriple m.vertices
  · show (m.faces.map jsonOfFace).mapM parseFace = some m.faces
    exact mapM_parseFace m.faces
  · show (m.vertex_colors.map jsonOfTriple).mapM parseTriple = some m.vertex_colors
    exact mapM_parseTriple m.vertex_colors

end ARMemory
